import Mathlib

/-
Verification of the notion_mcp todo server (src/notion_mcp/server.py) against
its natural-language specification.

The embedding models Python/JSON values as the inductive type `PyVal`;
dictionaries are ordered association lists.  Python code that may raise is
modelled in the `Option` monad (`none` = an exception was raised), and
functions that swallow exceptions (such as `safe_get_property`, whose whole
body is wrapped in `try: ... except Exception: return default`) recover from
`none` explicitly with the default.
-/

set_option autoImplicit false

namespace NotionMcp

/-- A Python/JSON value, as handled by the server: `null`/None, booleans,
strings, lists and (ordered) string-keyed dictionaries. -/
inductive PyVal where
  | null
  | bool (b : Bool)
  | str (s : String)
  | list (xs : List PyVal)
  | dict (fields : List (String × PyVal))
  deriving Repr

/-- First-match lookup in an ordered dictionary (Python `d[k]` / `d.get(k)`
on dictionaries whose keys are unique). -/
def lookupKey (k : String) : List (String × PyVal) → Option PyVal
  | [] => Option.none
  | (k2, v) :: rest => if k2 == k then some v else lookupKey k rest

/-- Python truthiness for the values the server tests with `if x:`. -/
def PyVal.truthy : PyVal → Bool
  | .null => false
  | .bool b => b
  | .str s => !(s == "")
  | .list xs => !xs.isEmpty
  | .dict fs => !fs.isEmpty

/-- Python subscript `v[k]` with a string key: succeeds only on a dictionary
holding the key; anything else raises (modelled as `none`). -/
def PyVal.getItem : PyVal → String → Option PyVal
  | .dict fs, k => lookupKey k fs
  | _, _ => Option.none

/-- A Python list comprehension `[item[key] for item in items]`: subscript
each element, raising (`none`) as soon as one element fails. -/
def getItems (key : String) : List PyVal → Option (List PyVal)
  | [] => some []
  | x :: xs =>
    match PyVal.getItem x key with
    | some v => (getItems key xs).map (fun vs => v :: vs)
    | Option.none => Option.none

/-- View a value as a dictionary; non-dictionaries yield `none`
(the Python code would raise at the corresponding access). -/
def PyVal.asDict : PyVal → Option (List (String × PyVal))
  | .dict fs => some fs
  | _ => Option.none

/-- Decoding of one looked-up property inside `safe_get_property`
(server.py lines 82-101), before the `except Exception: return default`
recovery.  `some v` is a normal return of `v`; `none` means an exception was
raised.

Mirrors the source: `prop_type = prop.get("type")` (raises unless `prop` is
a dictionary), the early `if not prop or not prop_type: return default`,
then one branch per type tag (`title`, `select`, `multi_select`, `date`,
`people`, `relation`), each guarded by the truthiness of its tag-specific
payload, with any malformed payload raising; unknown tags return the
default. -/
def propDecode (prop : PyVal) (default : PyVal) : Option PyVal :=
  match prop with
  | .dict pfs =>
      let propType := (lookupKey "type" pfs).getD .null
      if !(PyVal.dict pfs).truthy || !propType.truthy then some default
      else
        match propType with
        | .str tag =>
          if tag == "title" then
            match lookupKey "title" pfs with
            | some t =>
              if t.truthy then
                match t with
                | .list (first :: _) =>
                  (first.getItem "text").bind (fun tv => tv.getItem "content")
                | _ => Option.none
              else some default
            | Option.none => Option.none
          else if tag == "select" then
            match lookupKey "select" pfs with
            | some sv =>
              if sv.truthy then sv.getItem "name" else some default
            | Option.none => Option.none
          else if tag == "multi_select" then
            match lookupKey "multi_select" pfs with
            | some ms =>
              if ms.truthy then
                match ms with
                | .list items =>
                  (getItems "name" items).map PyVal.list
                | _ => Option.none
              else some default
            | Option.none => Option.none
          else if tag == "date" then
            match lookupKey "date" pfs with
            | some dv =>
              if dv.truthy then dv.getItem "start" else some default
            | Option.none => Option.none
          else if tag == "people" then
            match lookupKey "people" pfs with
            | some pv =>
              if pv.truthy then
                match pv with
                | .list people =>
                  (getItems "name" people).map PyVal.list
                | _ => Option.none
              else some default
            | Option.none => Option.none
          else if tag == "relation" then
            match lookupKey "relation" pfs with
            | some rv =>
              if rv.truthy then
                match rv with
                | .list rels =>
                  (getItems "id" rels).map PyVal.list
                | _ => Option.none
              else some default
            | Option.none => Option.none
          else some default
        | _ => some default
  | _ => Option.none

/-- The body of `safe_get_property` assembled: look the property up (absent
keys default to the empty dictionary, as `properties.get(key, {})` does) and
decode it; a non-dictionary `properties` raises at `properties.get`. -/
def sgpBody (properties : PyVal) (key : String) (default : PyVal) : Option PyVal :=
  match properties.asDict with
  | Option.none => Option.none
  | some fs => propDecode ((lookupKey key fs).getD (.dict [])) default

/-- `safe_get_property` (server.py lines 79-104): the body with the
`except Exception: return default` recovery applied. -/
def safe_get_property (properties : PyVal) (key : String) (default : PyVal) : PyVal :=
  (sgpBody properties key default).getD default

/-! ## Calendar dates -/

/-- A calendar date (no time component), the result of Python `.date()`. -/
structure Date where
  year : Nat
  month : Nat
  day : Nat
  deriving Repr, DecidableEq

/-- Gregorian leap-year rule, as used by Python `datetime`. -/
def isLeap (y : Nat) : Bool :=
  (y % 4 == 0 && y % 100 != 0) || y % 400 == 0

/-- Number of days in a month, as validated by Python `datetime`. -/
def daysInMonth (y m : Nat) : Nat :=
  if m == 2 then (if isLeap y then 29 else 28)
  else if m == 4 || m == 6 || m == 9 || m == 11 then 30
  else 31

/-- Splitting a character list at every `'-'`, as Python `s.split("-")`
(and the `-` separators consumed by `strptime("%Y-%m-%d")`) does. -/
def splitDash : List Char → List (List Char)
  | [] => [[]]
  | c :: rest =>
    let r := splitDash rest
    if c == '-' then [] :: r
    else
      match r with
      | g :: gs => (c :: g) :: gs
      | [] => [[c]]

/-- The numeric value of a list of decimal digit characters. -/
def natOfDigits (cs : List Char) : Nat :=
  cs.foldl (fun n c => n * 10 + (c.toNat - 48)) 0

/-- `validate_date` (server.py lines 69-77): the empty string is accepted,
otherwise the string must parse with `datetime.strptime(date_str, "%Y-%m-%d")`:
exactly four year digits, one or two month digits (1-12), one or two day
digits, and the day must exist in that month of that year. -/
def validate_date (date_str : String) : Bool :=
  if date_str == "" then true
  else
    match splitDash date_str.toList with
    | [ys, ms, ds] =>
      ys.all Char.isDigit && ys.length == 4 &&
      !ms.isEmpty && ms.all Char.isDigit && decide (ms.length ≤ 2) &&
      !ds.isEmpty && ds.all Char.isDigit && decide (ds.length ≤ 2) &&
      (let y := natOfDigits ys
       let m := natOfDigits ms
       let d := natOfDigits ds
       1 ≤ m && m ≤ 12 && 1 ≤ d && d ≤ daysInMonth y m)
    | _ => false

/-- Replacement of every `'Z'` character, modelling the
`due_str.replace("Z", "+00:00")` call at server.py line 427 (the pattern is
the single character `Z`, so character-level replacement is exact). -/
def replaceZChars : List Char → List Char
  | [] => []
  | c :: rest =>
    if c == 'Z' then '+' :: '0' :: '0' :: ':' :: '0' :: '0' :: replaceZChars rest
    else c :: replaceZChars rest

/-- `s.replace("Z", "+00:00")` on strings. -/
def pyReplaceZ (s : String) : String :=
  String.mk (replaceZChars s.toList)

/-- Two decimal digit characters as a number; `none` if either is not a digit. -/
def twoDigits (a b : Char) : Option Nat :=
  if a.isDigit && b.isDigit then some ((a.toNat - 48) * 10 + (b.toNat - 48))
  else Option.none

/-- Validity of a trailing UTC-offset part of an ISO timestamp
(empty, or a sign followed by `HH:MM`). -/
def validOffsetPart : List Char → Bool
  | [] => true
  | sgn :: h1 :: h2 :: ':' :: m1 :: m2 :: [] =>
    (sgn == '+' || sgn == '-') &&
    (match twoDigits h1 h2, twoDigits m1 m2 with
     | some hh, some mm => hh < 24 && mm < 60
     | _, _ => false)
  | _ => false

/-- Validity of what follows the seconds of an ISO timestamp: an optional
fractional part (a dot and at least one digit), then an optional offset. -/
def validAfterSeconds (cs : List Char) : Bool :=
  match cs with
  | '.' :: rest =>
    let ds := rest.takeWhile Char.isDigit
    let rest2 := rest.dropWhile Char.isDigit
    !ds.isEmpty && validOffsetPart rest2
  | _ => validOffsetPart cs

/-- Validity of what follows the minutes of an ISO timestamp: optional
`:SS` seconds, then fraction/offset. -/
def validAfterMinutes (cs : List Char) : Bool :=
  match cs with
  | ':' :: s1 :: s2 :: rest =>
    (match twoDigits s1 s2 with
     | some ss => ss < 60
     | Option.none => false) && validAfterSeconds rest
  | _ => validOffsetPart cs

/-- Validity of an optional time-of-day part of an ISO timestamp: empty, or
one separator character followed by `HH:MM` and the optional tail parts. -/
def validTimePart : List Char → Bool
  | [] => true
  | _sep :: h1 :: h2 :: ':' :: m1 :: m2 :: rest =>
    (match twoDigits h1 h2, twoDigits m1 m2 with
     | some hh, some mm => hh < 24 && mm < 60
     | _, _ => false) && validAfterMinutes rest
  | _ => false

/-- Model of `datetime.fromisoformat(s).date()` as used at server.py line 427:
parses a leading `YYYY-MM-DD` calendar date (validated against the calendar),
optionally followed by a separator character and a valid time-of-day with
optional fractional seconds and UTC offset, and yields the date component;
any other string raises `ValueError` (modelled as `none`). -/
def fromisoDate (s : String) : Option Date :=
  match s.toList with
  | y1 :: y2 :: y3 :: y4 :: '-' :: m1 :: m2 :: '-' :: d1 :: d2 :: rest =>
    match twoDigits y1 y2, twoDigits y3 y4, twoDigits m1 m2, twoDigits d1 d2 with
    | some yh, some yl, some m, some d =>
      let y := yh * 100 + yl
      if 1 ≤ m && m ≤ 12 && 1 ≤ d && d ≤ daysInMonth y m && validTimePart rest then
        some ⟨y, m, d⟩
      else Option.none
    | _, _, _, _ => Option.none
  | _ => Option.none

/-! ## create_todo -/

/-- The arguments of `create_todo` (server.py lines 184-194), with the
caller-supplied values in place of Python keyword defaults.  `tags` is
`Optional[List[str]]`. -/
structure CreateRequest where
  task : String
  assignee : String
  due : String
  priority : String
  tags : Option (List String)
  sprint : String
  project : String
  status : String
  github_pr : String
  deriving Repr

/-- The `properties` payload built by `create_todo` (server.py lines 209-258):
`Task name`, `Status` and `Priority` always, then `Due`, `Assignee`, `Tags`,
`Sprint`, `Project` and `GitHub PR` only when the corresponding argument is
truthy, each encoded with the type tag the source writes. -/
def encodeProperties (r : CreateRequest) : List (String × PyVal) :=
  [("Task name", .dict [("type", .str "title"),
      ("title", .list [.dict [("type", .str "text"),
        ("text", .dict [("content", .str r.task)])]])]),
   ("Status", .dict [("type", .str "select"),
      ("select", .dict [("name", .str r.status)])]),
   ("Priority", .dict [("type", .str "select"),
      ("select", .dict [("name", .str r.priority)])])]
  ++ (if r.due == "" then []
      else [("Due", .dict [("type", .str "date"),
        ("date", .dict [("start", .str r.due)])])])
  ++ (if r.assignee == "" then []
      else [("Assignee", .dict [("type", .str "people"),
        ("people", .list [.dict [("object", .str "user"), ("id", .str r.assignee)]])])])
  ++ (match r.tags with
      | some ts =>
        if ts.isEmpty then []
        else [("Tags", .dict [("type", .str "multi_select"),
          ("multi_select", .list (ts.map (fun t => .dict [("name", .str t)])))])]
      | Option.none => [])
  ++ (if r.sprint == "" then []
      else [("Sprint", .dict [("type", .str "relation"),
        ("relation", .list [.dict [("id", .str r.sprint)]])])])
  ++ (if r.project == "" then []
      else [("Project", .dict [("type", .str "relation"),
        ("relation", .list [.dict [("id", .str r.project)]])])])
  ++ (if r.github_pr == "" then []
      else [("GitHub PR", .dict [("type", .str "url"), ("url", .str r.github_pr)])])

/-- Outcome of the part of `create_todo` that runs before any network
traffic: either a raised `ValueError` (validation failure) or the `properties`
payload of the HTTP create request it proceeds to issue. -/
inductive CreateOutcome where
  | validationError (msg : String)
  | request (properties : List (String × PyVal))
  deriving Repr

/-- `create_todo` up to the HTTP call (server.py lines 196-271): validates
task, due-date format, priority and status in that order, raising
`ValueError` at the first failure, and only then builds the payload that is
posted to the store. -/
def create_todo (r : CreateRequest) : CreateOutcome :=
  if r.task == "" then .validationError "Task name is required"
  else if !validate_date r.due then .validationError "Invalid date format. Use YYYY-MM-DD"
  else if !(r.priority == "High" || r.priority == "Medium" || r.priority == "Low") then
    .validationError "Invalid priority. Must be High, Medium, or Low"
  else if !(r.status == "Done" || r.status == "In progress" || r.status == "Not started") then
    .validationError "Invalid status. Must be Done, In progress, or Not started"
  else .request (encodeProperties r)

/-! ## complete_todo and the store's update semantics -/

/-- The `properties` payload of the PATCH request issued by `complete_todo`
(server.py lines 297-304): a single `Status` property with type tag
`status`. -/
def complete_todo_properties : List (String × PyVal) :=
  [("Status", .dict [("type", .str "status"),
     ("status", .dict [("name", .str "Done")])])]

/-- Modelled from the spec: the external store is not part of this
repository.  Per the spec's store API (`update(recordId, propertiesPayload)
-> record`, with encode omitting absent fields "to prevent accidentally
clearing properties on partial updates"), an update replaces exactly the
properties named in the payload and leaves every other property of the
record unchanged. -/
def updateProperties (base upd : List (String × PyVal)) : List (String × PyVal) :=
  base.map (fun kv =>
    match lookupKey kv.1 upd with
    | some v => (kv.1, v)
    | Option.none => kv)
  ++ upd.filter (fun kv => (lookupKey kv.1 base).isNone)

/-! ## fetch_todos: the query builder -/

/-- Python truthiness of an `Optional[str]` argument: `None` and the empty
string are falsy. -/
def optTruthy : Option String → Bool
  | Option.none => false
  | some s => !(s == "")

/-- The status filter condition appended at server.py lines 120-123. -/
def statusCondition (s : String) : PyVal :=
  .dict [("property", .str "Status"), ("select", .dict [("equals", .str s)])]

/-- The assignee filter condition appended at server.py lines 126-129. -/
def assigneeCondition (s : String) : PyVal :=
  .dict [("property", .str "Assignee"), ("people", .dict [("contains", .str s)])]

/-- The priority filter condition appended at server.py lines 132-135. -/
def priorityCondition (s : String) : PyVal :=
  .dict [("property", .str "Priority"), ("select", .dict [("equals", .str s)])]

/-- The project filter condition appended at server.py lines 138-141. -/
def projectCondition (s : String) : PyVal :=
  .dict [("property", .str "Project"), ("relation", .dict [("contains", .str s)])]

/-- The sprint filter condition appended at server.py lines 144-147. -/
def sprintCondition (s : String) : PyVal :=
  .dict [("property", .str "Sprint"), ("relation", .dict [("contains", .str s)])]

/-- One `if criterion: filter_conditions.append(condition)` statement of
`fetch_todos`: the singleton condition when the `Optional[str]` criterion is
truthy, nothing otherwise. -/
def criterionBlock (criterion : Option String) (condition : String → PyVal) :
    List PyVal :=
  match criterion with
  | some s => if s == "" then [] else [condition s]
  | Option.none => []

/-- The `filter_conditions` list built by `fetch_todos` (server.py lines
117-147): one condition per truthy criterion, appended in source order. -/
def fetch_todos_conditions (status assignee priority project sprint : Option String) :
    List PyVal :=
  criterionBlock status statusCondition
  ++ criterionBlock assignee assigneeCondition
  ++ criterionBlock priority priorityCondition
  ++ criterionBlock project projectCondition
  ++ criterionBlock sprint sprintCondition

/-- The `filter_obj` body posted by `fetch_todos` (server.py lines 149-158):
a `filter` key holding the AND-conjunction of the conditions only when the
condition list is non-empty, always followed by the one-element `sorts`
list. -/
def fetch_todos_query (status assignee priority project sprint : Option String)
    (sort_by sort_direction : String) : List (String × PyVal) :=
  let conds := fetch_todos_conditions status assignee priority project sprint
  (if conds.isEmpty then [] else [("filter", .dict [("and", .list conds)])])
  ++ [("sorts", .list [.dict [("property", .str sort_by),
        ("direction", .str sort_direction)]])]

/-! ## The todo projection of call_tool (show_all_todos / show_today_todos) -/

/-- The formatted todo dictionary built at server.py lines 437-450, one
field per key in source order. -/
structure FormattedTodo where
  id : PyVal
  task_id : PyVal
  task : PyVal
  status : PyVal
  assignee : PyVal
  due : PyVal
  priority : PyVal
  tags : PyVal
  sprint : PyVal
  project : PyVal
  github_pr : PyVal
  created : PyVal
  deriving Repr

/-- The due-date computation of server.py lines 423-429 applied to a `Due`
value already extracted by `safe_get_property`: a truthy string is parsed
with `fromisoformat` after replacing `"Z"` by `"+00:00"`, a `ValueError`
from the parse is swallowed (due date stays `None`), a falsy value skips the
parse, and a truthy non-string raises (`.replace` is not defined on it). -/
def dueDateCalc (dueStr : PyVal) : Option (Option Date) :=
  match dueStr with
  | .str s =>
    if s == "" then some Option.none
    else some (fromisoDate (pyReplaceZ s))
  | other => if other.truthy then Option.none else some Option.none

/-- The parsed due date as a function of the `due` field a projected todo
carries (used to state that today-filtering is determined by the projected
record). -/
def dueDateOfStr (dueStr : PyVal) : Option Date :=
  match dueStr with
  | .str s => if s == "" then Option.none else fromisoDate (pyReplaceZ s)
  | _ => Option.none

/-- One iteration of the projection loop of `call_tool` (server.py lines
416-450), up to the today-filtering: `none` when the record raised inside
the per-record `try` (missing `properties`/`id`/`created_time`, or a truthy
non-string due value), otherwise the formatted todo together with the
parsed due date. -/
def processRecord (todo : PyVal) : Option (FormattedTodo × Option Date) :=
  match todo.getItem "properties" with
  | Option.none => Option.none
  | some props =>
    let dueStr := safe_get_property props "Due" (.str "")
    match dueDateCalc dueStr with
    | Option.none => Option.none
    | some dueDate =>
      match todo.getItem "id", todo.getItem "created_time" with
      | some idv, some created =>
        some (⟨idv,
               safe_get_property props "Task ID" (.str ""),
               safe_get_property props "Task name" (.str ""),
               safe_get_property props "Status" (.str ""),
               safe_get_property props "Assignee" (.str ""),
               dueStr,
               safe_get_property props "Priority" (.str ""),
               safe_get_property props "Tags" (.list []),
               safe_get_property props "Sprint" (.str ""),
               safe_get_property props "Project" (.str ""),
               safe_get_property props "GitHub PR" (.str ""),
               created⟩, dueDate)
      | _, _ => Option.none

/-- The `formatted_todos` list built by `call_tool` for `show_all_todos`
(`todayOnly = false`) and `show_today_todos` (`todayOnly = true`), server.py
lines 413-461: records that raise are skipped (`continue`), and in today
mode a record is kept only when its parsed due date exists and equals
`today` (`datetime.now(timezone.utc).date()`, passed here as a
parameter). -/
def processTodos (todayOnly : Bool) (results : List PyVal) (today : Date) :
    List FormattedTodo :=
  results.filterMap (fun todo =>
    match processRecord todo with
    | Option.none => Option.none
    | some (ft, dueDate) =>
      if todayOnly then
        match dueDate with
        | some d => if d = today then some ft else Option.none
        | Option.none => Option.none
      else some ft)

/-! ## The add_todo branch of call_tool -/

/-- The parameter names of `create_todo` (server.py lines 184-194).  Python
binds a keyword argument only to a parameter of this list and raises
`TypeError` for any other keyword name. -/
def create_todo_param_names : List String :=
  ["task", "assignee", "due", "priority", "tags", "sprint", "project", "status",
   "github_pr"]

/-- Outcome of the `add_todo` branch of `call_tool`: a raised `ValueError`
(argument validation), a raised `TypeError` (keyword-argument binding
failure, not caught by the branch's `except httpx.HTTPError` handler), or a
created todo together with the success reply mentioning the task and the
`when` value. -/
inductive AddTodoOutcome where
  | raisedValueError (msg : String)
  | raisedTypeError (msg : String)
  | createdAndReplied (task whenArg : PyVal)
  deriving Repr

/-- The `add_todo` branch of `call_tool` (server.py lines 378-397): after
validating that `task` is truthy and `when` is `"today"` or `"later"`, it
evaluates `create_todo(task, when=when)`.  `create_todo` has no parameter
named `"when"`, so keyword binding raises `TypeError` unless `"when"` is
among `create_todo_param_names`; that `TypeError` is not an
`httpx.HTTPError` and escapes the handler. -/
def call_tool_add_todo (arguments : PyVal) : AddTodoOutcome :=
  match arguments with
  | .dict args =>
    let task := (lookupKey "task" args).getD .null
    let whenArg := (lookupKey "when" args).getD (.str "later")
    if !task.truthy then .raisedValueError "Task is required"
    else
      let whenOk := match whenArg with
        | .str w => w == "today" || w == "later"
        | _ => false
      if !whenOk then .raisedValueError "When must be 'today' or 'later'"
      else if "when" ∈ create_todo_param_names then .createdAndReplied task whenArg
      else .raisedTypeError "create_todo() got an unexpected keyword argument 'when'"
  | _ => .raisedValueError "Invalid arguments"

/-! ## Helper lemmas -/

theorem lookupKey_append (k : String) (l1 l2 : List (String × PyVal)) :
    lookupKey k (l1 ++ l2) =
      match lookupKey k l1 with
      | some v => some v
      | Option.none => lookupKey k l2 := by
  induction l1 with
  | nil => rfl
  | cons kv rest ih =>
    obtain ⟨k2, v⟩ := kv
    simp only [List.cons_append, lookupKey]
    split <;> simp [ih]

theorem lookupKey_append_left (k : String) (l1 l2 : List (String × PyVal)) (v : PyVal)
    (h : lookupKey k l1 = some v) : lookupKey k (l1 ++ l2) = some v := by
  rw [lookupKey_append, h]

theorem lookupKey_append_right (k : String) (l1 l2 : List (String × PyVal))
    (h : lookupKey k l1 = Option.none) : lookupKey k (l1 ++ l2) = lookupKey k l2 := by
  rw [lookupKey_append, h]

theorem lookupKey_isEmpty_false (k : String) (l : List (String × PyVal)) (v : PyVal)
    (h : lookupKey k l = some v) : l.isEmpty = false := by
  cases l with
  | nil => simp [lookupKey] at h
  | cons kv rest => rfl

theorem getItems_name_of_map (ts : List String) :
    getItems "name" (ts.map (fun t => PyVal.dict [("name", PyVal.str t)])) =
      some (ts.map PyVal.str) := by
  induction ts with
  | nil => rfl
  | cons t rest ih => simp [getItems, PyVal.getItem, lookupKey, ih]

theorem safe_get_property_dict (fs : List (String × PyVal)) (key : String) (d : PyVal) :
    safe_get_property (.dict fs) key d =
      (propDecode ((lookupKey key fs).getD (.dict [])) d).getD d := rfl

theorem safe_get_property_absent (fs : List (String × PyVal)) (key : String) (d : PyVal)
    (h : lookupKey key fs = Option.none) : safe_get_property (.dict fs) key d = d := by
  rw [safe_get_property_dict, h]
  rfl

theorem safe_get_property_entry (fs : List (String × PyVal)) (key : String)
    (d p : PyVal) (h : lookupKey key fs = some p) :
    safe_get_property (.dict fs) key d = (propDecode p d).getD d := by
  rw [safe_get_property_dict, h]
  rfl

theorem propDecode_no_tag (pfs : List (String × PyVal)) (d : PyVal)
    (h : lookupKey "type" pfs = Option.none) : propDecode (.dict pfs) d = some d := by
  simp [propDecode, h, PyVal.truthy]

theorem propDecode_unknown_tag (pfs : List (String × PyVal)) (tag : String) (d : PyVal)
    (h : lookupKey "type" pfs = some (.str tag))
    (h1 : tag ≠ "title") (h2 : tag ≠ "select") (h3 : tag ≠ "multi_select")
    (h4 : tag ≠ "date") (h5 : tag ≠ "people") (h6 : tag ≠ "relation") :
    propDecode (.dict pfs) d = some d := by
  by_cases he : tag = ""
  · subst he
    simp [propDecode, h, PyVal.truthy, lookupKey_isEmpty_false "type" pfs _ h]
  · simp [propDecode, h, PyVal.truthy, lookupKey_isEmpty_false "type" pfs _ h,
      he, h1, h2, h3, h4, h5, h6]

theorem truthy_dict (fs : List (String × PyVal)) :
    (PyVal.dict fs).truthy = !fs.isEmpty := rfl

theorem truthy_str (s : String) : (PyVal.str s).truthy = !(s == "") := rfl

theorem truthy_list (xs : List PyVal) : (PyVal.list xs).truthy = !xs.isEmpty := rfl

theorem propDecode_title_encode (s : String) (d : PyVal) :
    propDecode (.dict [("type", .str "title"),
      ("title", .list [.dict [("type", .str "text"),
        ("text", .dict [("content", .str s)])]])]) d = some (.str s) := rfl

theorem propDecode_select_encode (s : String) (d : PyVal) :
    propDecode (.dict [("type", .str "select"),
      ("select", .dict [("name", .str s)])]) d = some (.str s) := rfl

theorem propDecode_date_encode (s : String) (d : PyVal) :
    propDecode (.dict [("type", .str "date"),
      ("date", .dict [("start", .str s)])]) d = some (.str s) := rfl

theorem propDecode_relation_encode (s : String) (d : PyVal) :
    propDecode (.dict [("type", .str "relation"),
      ("relation", .list [.dict [("id", .str s)]])]) d = some (.list [.str s]) := rfl

theorem propDecode_people_encode (s : String) (d : PyVal) :
    propDecode (.dict [("type", .str "people"),
      ("people", .list [.dict [("object", .str "user"), ("id", .str s)]])]) d =
      Option.none := rfl

theorem propDecode_url_encode (s : String) (d : PyVal) :
    propDecode (.dict [("type", .str "url"), ("url", .str s)]) d = some d := rfl

theorem propDecode_multi_select_encode (ts : List String) (d : PyVal) (h : ts ≠ []) :
    propDecode (.dict [("type", .str "multi_select"),
      ("multi_select", .list (ts.map (fun t => PyVal.dict [("name", PyVal.str t)])))]) d
      = some (.list (ts.map PyVal.str)) := by
  cases ts with
  | nil => exact absurd rfl h
  | cons t rest =>
    simp [propDecode, lookupKey, PyVal.truthy, getItems_name_of_map, getItems,
      PyVal.getItem]

theorem propDecode_title_value (pfs : List (String × PyVal)) (d : PyVal)
    (first tv c : PyVal) (rest : List PyVal)
    (htag : lookupKey "type" pfs = some (.str "title"))
    (ht : lookupKey "title" pfs = some (.list (first :: rest)))
    (htx : first.getItem "text" = some tv)
    (hc : tv.getItem "content" = some c) :
    propDecode (.dict pfs) d = some c := by
  simp [propDecode, htag, truthy_dict, truthy_str, truthy_list,
    lookupKey_isEmpty_false _ _ _ htag, ht, htx, hc]

theorem propDecode_select_value (pfs : List (String × PyVal)) (d sv n : PyVal)
    (htag : lookupKey "type" pfs = some (.str "select"))
    (hsv : lookupKey "select" pfs = some sv)
    (htr : sv.truthy = true)
    (hn : sv.getItem "name" = some n) :
    propDecode (.dict pfs) d = some n := by
  simp [propDecode, htag, truthy_dict, truthy_str, lookupKey_isEmpty_false _ _ _ htag,
    hsv, htr, hn]

theorem propDecode_date_value (pfs : List (String × PyVal)) (d dv st : PyVal)
    (htag : lookupKey "type" pfs = some (.str "date"))
    (hdv : lookupKey "date" pfs = some dv)
    (htr : dv.truthy = true)
    (hst : dv.getItem "start" = some st) :
    propDecode (.dict pfs) d = some st := by
  simp [propDecode, htag, truthy_dict, truthy_str, lookupKey_isEmpty_false _ _ _ htag,
    hdv, htr, hst]

theorem propDecode_multi_select_value (pfs : List (String × PyVal)) (d : PyVal)
    (items names : List PyVal)
    (htag : lookupKey "type" pfs = some (.str "multi_select"))
    (hms : lookupKey "multi_select" pfs = some (.list items))
    (hne : items ≠ [])
    (hnames : getItems "name" items = some names) :
    propDecode (.dict pfs) d = some (.list names) := by
  simp [propDecode, htag, truthy_dict, truthy_str, truthy_list,
    lookupKey_isEmpty_false _ _ _ htag, hms, hne, hnames]

theorem propDecode_people_value (pfs : List (String × PyVal)) (d : PyVal)
    (people names : List PyVal)
    (htag : lookupKey "type" pfs = some (.str "people"))
    (hpv : lookupKey "people" pfs = some (.list people))
    (hne : people ≠ [])
    (hnames : getItems "name" people = some names) :
    propDecode (.dict pfs) d = some (.list names) := by
  simp [propDecode, htag, truthy_dict, truthy_str, truthy_list,
    lookupKey_isEmpty_false _ _ _ htag, hpv, hne, hnames]

theorem propDecode_relation_value (pfs : List (String × PyVal)) (d : PyVal)
    (rels ids : List PyVal)
    (htag : lookupKey "type" pfs = some (.str "relation"))
    (hrv : lookupKey "relation" pfs = some (.list rels))
    (hne : rels ≠ [])
    (hids : getItems "id" rels = some ids) :
    propDecode (.dict pfs) d = some (.list ids) := by
  simp [propDecode, htag, truthy_dict, truthy_str, truthy_list,
    lookupKey_isEmpty_false _ _ _ htag, hrv, hne, hids]

theorem propDecode_falsy_payload (pfs : List (String × PyVal)) (tag : String)
    (pl d : PyVal)
    (htag : lookupKey "type" pfs = some (.str tag))
    (hmem : tag = "title" ∨ tag = "select" ∨ tag = "multi_select" ∨ tag = "date" ∨
      tag = "people" ∨ tag = "relation")
    (hpl : lookupKey tag pfs = some pl)
    (hfl : pl.truthy = false) :
    propDecode (.dict pfs) d = some d := by
  rcases hmem with h | h | h | h | h | h <;> subst h <;>
    simp [propDecode, htag, truthy_dict, truthy_str, lookupKey_isEmpty_false _ _ _ htag,
      hpl, hfl]

theorem dueDateCalc_det (v : PyVal) (o : Option Date) (h : dueDateCalc v = some o) :
    o = dueDateOfStr v := by
  cases v <;> simp only [dueDateCalc, dueDateOfStr] at *
  case str s =>
    by_cases he : s == ""
    · simp [he] at h ⊢
      exact h.symm
    · simp [he] at h ⊢
      exact h.symm
  all_goals (split at h <;> simp_all)

theorem processRecord_due (todo : PyVal) (ft : FormattedTodo) (dd : Option Date)
    (h : processRecord todo = some (ft, dd)) : dd = dueDateOfStr ft.due := by
  cases hp : todo.getItem "properties" with
  | none => simp [processRecord, hp] at h
  | some props =>
    cases hc : dueDateCalc (safe_get_property props "Due" (.str "")) with
    | none => simp [processRecord, hp, hc] at h
    | some dueDate =>
      cases hi : todo.getItem "id" with
      | none => simp [processRecord, hp, hc, hi] at h
      | some idv =>
        cases hcr : todo.getItem "created_time" with
        | none => simp [processRecord, hp, hc, hi, hcr] at h
        | some created =>
          simp only [processRecord, hp, hc, hi, hcr, Option.some.injEq,
            Prod.mk.injEq] at h
          obtain ⟨hft, hdd⟩ := h
          subst hdd
          subst hft
          exact dueDateCalc_det _ _ hc

theorem processRecord_fields (todo : PyVal) (ft : FormattedTodo) (dd : Option Date)
    (props : PyVal) (h : processRecord todo = some (ft, dd))
    (hp : todo.getItem "properties" = some props) :
    ft.github_pr = safe_get_property props "GitHub PR" (.str "") ∧
      ft.status = safe_get_property props "Status" (.str "") ∧
      ft.priority = safe_get_property props "Priority" (.str "") ∧
      ft.due = safe_get_property props "Due" (.str "") := by
  cases hc : dueDateCalc (safe_get_property props "Due" (.str "")) with
  | none => simp [processRecord, hp, hc] at h
  | some dueDate =>
    cases hi : todo.getItem "id" with
    | none => simp [processRecord, hp, hc, hi] at h
    | some idv =>
      cases hcr : todo.getItem "created_time" with
      | none => simp [processRecord, hp, hc, hi, hcr] at h
      | some created =>
        simp only [processRecord, hp, hc, hi, hcr, Option.some.injEq,
          Prod.mk.injEq] at h
        obtain ⟨hft, _⟩ := h
        subst hft
        exact ⟨rfl, rfl, rfl, rfl⟩

theorem length_filterMap_of_isSome {α β : Type} (f : α → Option β) (l : List α)
    (h : ∀ a ∈ l, (f a).isSome) : (l.filterMap f).length = l.length := by
  induction l with
  | nil => rfl
  | cons a rest ih =>
    have ha := h a (by simp)
    cases hfa : f a with
    | none => rw [hfa] at ha; simp at ha
    | some b =>
      simp only [List.filterMap_cons, hfa, List.length_cons]
      rw [ih (fun x hx => h x (by simp [hx]))]

theorem lookupKey_ifblock (k k2 : String) (p : Prop) [Decidable p] (v : PyVal)
    (h : (k2 == k) = false) :
    lookupKey k (if p then [] else [(k2, v)]) = Option.none := by
  split <;> simp [lookupKey, h]

theorem lookup_encode_task (r : CreateRequest) :
    lookupKey "Task name" (encodeProperties r) =
      some (.dict [("type", .str "title"),
        ("title", .list [.dict [("type", .str "text"),
          ("text", .dict [("content", .str r.task)])]])]) := by
  simp [encodeProperties, lookupKey_append, lookupKey]

theorem lookup_encode_status (r : CreateRequest) :
    lookupKey "Status" (encodeProperties r) =
      some (.dict [("type", .str "select"),
        ("select", .dict [("name", .str r.status)])]) := by
  simp [encodeProperties, lookupKey_append, lookupKey]

theorem lookup_encode_priority (r : CreateRequest) :
    lookupKey "Priority" (encodeProperties r) =
      some (.dict [("type", .str "select"),
        ("select", .dict [("name", .str r.priority)])]) := by
  simp [encodeProperties, lookupKey_append, lookupKey]

theorem lookup_encode_due (r : CreateRequest) (h : r.due ≠ "") :
    lookupKey "Due" (encodeProperties r) =
      some (.dict [("type", .str "date"),
        ("date", .dict [("start", .str r.due)])]) := by
  simp [encodeProperties, lookupKey_append, lookupKey, h]

theorem lookup_encode_assignee (r : CreateRequest) (h : r.assignee ≠ "") :
    lookupKey "Assignee" (encodeProperties r) =
      some (.dict [("type", .str "people"),
        ("people", .list [.dict [("object", .str "user"), ("id", .str r.assignee)]])]) := by
  simp [encodeProperties, lookupKey_append, lookupKey, lookupKey_ifblock, h]

theorem lookup_encode_tags (r : CreateRequest) (ts : List String)
    (h : r.tags = some ts) (hne : ts ≠ []) :
    lookupKey "Tags" (encodeProperties r) =
      some (.dict [("type", .str "multi_select"),
        ("multi_select", .list (ts.map (fun t => PyVal.dict [("name", PyVal.str t)])))]) := by
  simp [encodeProperties, lookupKey_append, lookupKey, lookupKey_ifblock, h, hne]

theorem lookup_encode_sprint (r : CreateRequest) (h : r.sprint ≠ "") :
    lookupKey "Sprint" (encodeProperties r) =
      some (.dict [("type", .str "relation"),
        ("relation", .list [.dict [("id", .str r.sprint)]])]) := by
  rcases htags : r.tags with _ | ts
  · simp [encodeProperties, lookupKey_append, lookupKey, lookupKey_ifblock, htags, h]
  · by_cases ht : ts.isEmpty <;>
      simp [encodeProperties, lookupKey_append, lookupKey, lookupKey_ifblock, htags, ht, h]

theorem lookup_encode_project (r : CreateRequest) (h : r.project ≠ "") :
    lookupKey "Project" (encodeProperties r) =
      some (.dict [("type", .str "relation"),
        ("relation", .list [.dict [("id", .str r.project)]])]) := by
  rcases htags : r.tags with _ | ts
  · simp [encodeProperties, lookupKey_append, lookupKey, lookupKey_ifblock, htags, h]
  · by_cases ht : ts.isEmpty <;>
      simp [encodeProperties, lookupKey_append, lookupKey, lookupKey_ifblock, htags, ht, h]

theorem lookup_encode_github_pr (r : CreateRequest) (h : r.github_pr ≠ "") :
    lookupKey "GitHub PR" (encodeProperties r) =
      some (.dict [("type", .str "url"), ("url", .str r.github_pr)]) := by
  rcases htags : r.tags with _ | ts
  · simp [encodeProperties, lookupKey_append, lookupKey, lookupKey_ifblock, htags, h]
  · by_cases ht : ts.isEmpty <;>
      simp [encodeProperties, lookupKey_append, lookupKey, lookupKey_ifblock, htags, ht, h]

theorem criterionBlock_nil_iff (o : Option String) (c : String → PyVal) :
    criterionBlock o c = [] ↔ optTruthy o = false := by
  cases o with
  | none => simp [criterionBlock, optTruthy]
  | some s =>
    by_cases he : s == "" <;> simp [criterionBlock, optTruthy, he]

theorem criterionBlock_of_truthy (o : Option String) (c : String → PyVal) (s : String)
    (ho : o = some s) (hs : s ≠ "") : criterionBlock o c = [c s] := by
  subst ho
  simp [criterionBlock, hs]

theorem length_criterionBlock (o : Option String) (c : String → PyVal) :
    (criterionBlock o c).length = if optTruthy o then 1 else 0 := by
  cases o with
  | none => rfl
  | some s => by_cases he : s == "" <;> simp [criterionBlock, optTruthy, he]

/-! ## Concrete records used by the claim theorems -/

/-- A create request exercising every optional field. -/
def reqC2 : CreateRequest :=
  ⟨"Write report", "user-1", "2025-03-01", "High", some ["alpha"], "sp-1", "pr-1",
   "Not started", "https://github.example/pr/1"⟩

/-- A raw store record whose `Due` date string is present but not parseable. -/
def malformedDueRecord : PyVal :=
  .dict [("id", .str "rec-1"), ("created_time", .str "2025-01-01T00:00:00.000Z"),
    ("properties", .dict [
      ("Task name", .dict [("type", .str "title"),
        ("title", .list [.dict [("type", .str "text"),
          ("text", .dict [("content", .str "Task 1")])]])]),
      ("Due", .dict [("type", .str "date"),
        ("date", .dict [("start", .str "not-a-date")])])])]

/-- The create request of the spec's end-to-end completion scenario. -/
def reqC9 : CreateRequest :=
  ⟨"Write report", "", "2025-03-01", "High", Option.none, "", "", "Not started", ""⟩

/-- A raw store record carrying a `url`-tagged `GitHub PR` property and a
`status`-tagged `Status` property. -/
def recC10 : PyVal :=
  .dict [("id", .str "rec-2"), ("created_time", .str "2025-01-02T00:00:00.000Z"),
    ("properties", .dict [
      ("GitHub PR", .dict [("type", .str "url"),
        ("url", .str "https://github.example/pr/7")]),
      ("Status", .dict [("type", .str "status"),
        ("status", .dict [("name", .str "Done")])])])]

/-- A raw store record that projects successfully (empty properties: every
field decodes to its default). -/
def wellFormedRecord : PyVal :=
  .dict [("id", .str "rec-3"), ("created_time", .str "2025-01-03T00:00:00.000Z"),
    ("properties", .dict [])]

/-- A raw store record whose conversion raises (no `properties` key). -/
def throwingRecord : PyVal := .dict []

/-! ## Claim theorems -/

/-- Claim C1.  The claim states that a valid `add_todo` invocation (non-empty
task, `when` in {today, later}) creates a todo and returns a success payload,
with `when` validated but silently dropped.  The code instead evaluates
`create_todo(task, when=when)`, and `create_todo` has no parameter named
`when`, so every valid `add_todo` invocation raises `TypeError` (which the
branch's `except httpx.HTTPError` does not catch): no todo is ever created
and no success payload is ever returned.  This theorem shows the `TypeError`
outcome at the concrete failing input and that the success outcome is
unreachable for every argument bag. -/
theorem add_todo_when_binding_raises :
    call_tool_add_todo (.dict [("task", .str "buy milk"), ("when", .str "today")]) =
      .raisedTypeError "create_todo() got an unexpected keyword argument 'when'" ∧
    ∀ (arguments task whenArg : PyVal),
      call_tool_add_todo arguments ≠ .createdAndReplied task whenArg := by
  refine ⟨rfl, ?_⟩
  intro arguments t w h
  cases arguments <;> simp [call_tool_add_todo, create_todo_param_names] at h
  split at h
  · simp_all
  · split at h <;> simp_all

/-- Claim C2, counterexample.  For the valid request `reqC2` the assignee and
external-link (GitHub PR) properties written by encode are NOT recovered by
decode: the people decoder reads a `name` key that encode does not write
(encode writes only `object`/`id`), and decode has no `url` branch, so both
decode to the supplied default `""` instead of the original values. -/
theorem encode_decode_drops_assignee_and_link :
    reqC2.assignee = "user-1" ∧ reqC2.github_pr = "https://github.example/pr/1" ∧
    safe_get_property (.dict (encodeProperties reqC2)) "Assignee" (.str "") = .str "" ∧
    safe_get_property (.dict (encodeProperties reqC2)) "GitHub PR" (.str "") = .str "" ∧
    (PyVal.str "" ≠ .str "user-1") ∧
    (PyVal.str "" ≠ .str "https://github.example/pr/1") := by
  refine ⟨rfl, rfl, rfl, rfl, by simp, by simp⟩

/-- Claim C2, amended.  For every valid create request, decoding the encoded
payload recovers the required fields (task name, status, priority) exactly,
and recovers due and tags exactly and sprint/project as singleton identifier
lists when present; but the optional assignee and external-link fields are
NOT recovered: decode returns the supplied default for them. -/
theorem encode_decode_roundtrip_amended :
    ∀ r : CreateRequest,
      r.task ≠ "" → validate_date r.due = true →
      (r.priority = "High" ∨ r.priority = "Medium" ∨ r.priority = "Low") →
      (r.status = "Done" ∨ r.status = "In progress" ∨ r.status = "Not started") →
      safe_get_property (.dict (encodeProperties r)) "Task name" (.str "") = .str r.task ∧
      safe_get_property (.dict (encodeProperties r)) "Status" (.str "") = .str r.status ∧
      safe_get_property (.dict (encodeProperties r)) "Priority" (.str "") =
        .str r.priority ∧
      (r.due ≠ "" →
        safe_get_property (.dict (encodeProperties r)) "Due" (.str "") = .str r.due) ∧
      (∀ ts, r.tags = some ts → ts ≠ [] →
        safe_get_property (.dict (encodeProperties r)) "Tags" (.list []) =
          .list (ts.map PyVal.str)) ∧
      (r.sprint ≠ "" →
        safe_get_property (.dict (encodeProperties r)) "Sprint" (.str "") =
          .list [.str r.sprint]) ∧
      (r.project ≠ "" →
        safe_get_property (.dict (encodeProperties r)) "Project" (.str "") =
          .list [.str r.project]) ∧
      (r.assignee ≠ "" →
        safe_get_property (.dict (encodeProperties r)) "Assignee" (.str "") = .str "") ∧
      (r.github_pr ≠ "" →
        safe_get_property (.dict (encodeProperties r)) "GitHub PR" (.str "") = .str "") := by
  intro r htask hdate hpri hstat
  refine ⟨?_, ?_, ?_, ?_, ?_, ?_, ?_, ?_, ?_⟩
  · rw [safe_get_property_entry _ _ _ _ (lookup_encode_task r), propDecode_title_encode]
    rfl
  · rw [safe_get_property_entry _ _ _ _ (lookup_encode_status r), propDecode_select_encode]
    rfl
  · rw [safe_get_property_entry _ _ _ _ (lookup_encode_priority r),
      propDecode_select_encode]
    rfl
  · intro h
    rw [safe_get_property_entry _ _ _ _ (lookup_encode_due r h), propDecode_date_encode]
    rfl
  · intro ts hts hne
    rw [safe_get_property_entry _ _ _ _ (lookup_encode_tags r ts hts hne),
      propDecode_multi_select_encode ts _ hne]
    rfl
  · intro h
    rw [safe_get_property_entry _ _ _ _ (lookup_encode_sprint r h),
      propDecode_relation_encode]
    rfl
  · intro h
    rw [safe_get_property_entry _ _ _ _ (lookup_encode_project r h),
      propDecode_relation_encode]
    rfl
  · intro h
    rw [safe_get_property_entry _ _ _ _ (lookup_encode_assignee r h),
      propDecode_people_encode]
    rfl
  · intro h
    rw [safe_get_property_entry _ _ _ _ (lookup_encode_github_pr r h),
      propDecode_url_encode]
    rfl

/-- Witness for the amended C2 roundtrip theorem at the concrete request
`reqC2`. -/
theorem encode_decode_roundtrip_amended_witness :
    safe_get_property (.dict (encodeProperties reqC2)) "Task name" (.str "") =
      .str "Write report" ∧
    safe_get_property (.dict (encodeProperties reqC2)) "Due" (.str "") =
      .str "2025-03-01" ∧
    safe_get_property (.dict (encodeProperties reqC2)) "Tags" (.list []) =
      .list [.str "alpha"] ∧
    safe_get_property (.dict (encodeProperties reqC2)) "Sprint" (.str "") =
      .list [.str "sp-1"] ∧
    safe_get_property (.dict (encodeProperties reqC2)) "Assignee" (.str "") = .str "" := by
  have h := encode_decode_roundtrip_amended reqC2 (by decide) (by rfl) (by decide)
    (by decide)
  exact ⟨h.1, h.2.2.2.1 (by decide), h.2.2.2.2.1 ["alpha"] rfl (by decide),
    h.2.2.2.2.2.1 (by decide), h.2.2.2.2.2.2.2.1 (by decide)⟩

/-- Claim C3, counterexample.  For the record `malformedDueRecord` (due string
`"not-a-date"`), projection does not raise and the parsed due date is absent,
but the projected todo's `due` field carries the raw malformed string, not an
absent/empty value: the claim's assertion that the malformed string is not
surfaced as the due value is false. -/
theorem malformed_due_string_surfaced :
    (processRecord malformedDueRecord).map (fun p => (p.1.due, p.2)) =
      some (.str "not-a-date", Option.none) ∧
    (PyVal.str "not-a-date" ≠ .str "") := ⟨rfl, by simp⟩

/-- Claim C3, amended.  For every record whose extracted due string is
non-empty and not parseable, projection does not raise: the record is still
projected, the parsed due date used for due-today classification is absent,
but the projected todo's `due` field carries the raw malformed string. -/
theorem malformed_due_projection_amended :
    ∀ (todo props idv created : PyVal) (s : String),
      todo.getItem "properties" = some props →
      safe_get_property props "Due" (.str "") = .str s →
      s ≠ "" →
      fromisoDate (pyReplaceZ s) = Option.none →
      todo.getItem "id" = some idv →
      todo.getItem "created_time" = some created →
      (processRecord todo).map (fun p => (p.1.due, p.2)) =
        some (.str s, Option.none) := by
  intro todo props idv created s hp hdue hs hparse hid hcr
  simp [processRecord, hp, hdue, dueDateCalc, hs, hparse, hid, hcr]

/-- Witness for the amended C3 theorem at the concrete record
`malformedDueRecord`. -/
theorem malformed_due_projection_amended_witness :
    (processRecord malformedDueRecord).map (fun p => (p.1.due, p.2)) =
      some (.str "not-a-date", Option.none) :=
  malformed_due_projection_amended _ _ _ _ _ rfl rfl (by decide) rfl rfl rfl

/-- Claim C4.  `show_today_todos` returns exactly those projected todos whose
parsed due date equals the current UTC date: the today listing is the all
listing filtered by "parsed due date = today" (so a todo with no or an
unparseable due date is never included, and one whose date differs from
today in either direction is excluded), and membership in the today listing
is equivalent to some record of the batch projecting to the todo with parsed
due date exactly `today`. -/
theorem show_today_returns_exactly_due_today :
    ∀ (results : List PyVal) (today : Date),
      processTodos true results today =
        (processTodos false results today).filter
          (fun ft => decide (dueDateOfStr ft.due = some today)) ∧
      (∀ ft, ft ∈ processTodos true results today ↔
        ∃ todo, todo ∈ results ∧ processRecord todo = some (ft, some today)) := by
  intro results today
  constructor
  · induction results with
    | nil => rfl
    | cons todo rest ih =>
      cases h : processRecord todo with
      | none =>
        simp only [processTodos, List.filterMap_cons, h] at ih ⊢
        exact ih
      | some p =>
        obtain ⟨ft, dd⟩ := p
        have hdd := processRecord_due _ _ _ h
        rcases dd with _ | d
        · simp [processTodos, List.filterMap_cons, List.filter_cons, h, ← hdd] at ih ⊢
          exact ih
        · by_cases hd : d = today <;>
            simp [processTodos, List.filterMap_cons, List.filter_cons, h, ← hdd, hd]
              at ih ⊢ <;>
            exact ih
  · intro ft
    simp only [processTodos, List.mem_filterMap]
    constructor
    · rintro ⟨todo, ht, hf⟩
      refine ⟨todo, ht, ?_⟩
      cases h : processRecord todo with
      | none => rw [h] at hf; simp at hf
      | some p =>
        obtain ⟨ft2, dd⟩ := p
        rw [h] at hf
        rcases dd with _ | d
        · simp at hf
        · by_cases hd : d = today
          · subst hd
            simp at hf
            subst hf
            rfl
          · simp [hd] at hf
    · rintro ⟨todo, ht, hp⟩
      exact ⟨todo, ht, by simp [hp]⟩

/-- Claim C5.  The query built by `fetch_todos` omits the `filter` clause
exactly when no criterion is set; otherwise the clause is the AND-conjunction
of the condition list, whose length is the number of set criteria and which
contains the equality condition for status/priority and the containment
condition for assignee/project/sprint whenever the respective criterion is
set. -/
theorem query_builder_filter_spec :
    ∀ (status assignee priority project sprint : Option String) (sb sd : String),
      (lookupKey "filter"
          (fetch_todos_query status assignee priority project sprint sb sd) =
          Option.none ↔
        optTruthy status = false ∧ optTruthy assignee = false ∧
          optTruthy priority = false ∧ optTruthy project = false ∧
          optTruthy sprint = false) ∧
      (fetch_todos_conditions status assignee priority project sprint ≠ [] →
        lookupKey "filter"
            (fetch_todos_query status assignee priority project sprint sb sd) =
          some (.dict [("and",
            .list (fetch_todos_conditions status assignee priority project sprint))])) ∧
      (fetch_todos_conditions status assignee priority project sprint).length =
        ((if optTruthy status then 1 else 0) + ((if optTruthy assignee then 1 else 0) +
          ((if optTruthy priority then 1 else 0) + ((if optTruthy project then 1 else 0) +
          (if optTruthy sprint then 1 else 0))))) ∧
      (∀ s, status = some s → s ≠ "" →
        statusCondition s ∈
          fetch_todos_conditions status assignee priority project sprint) ∧
      (∀ s, assignee = some s → s ≠ "" →
        assigneeCondition s ∈
          fetch_todos_conditions status assignee priority project sprint) ∧
      (∀ s, priority = some s → s ≠ "" →
        priorityCondition s ∈
          fetch_todos_conditions status assignee priority project sprint) ∧
      (∀ s, project = some s → s ≠ "" →
        projectCondition s ∈
          fetch_todos_conditions status assignee priority project sprint) ∧
      (∀ s, sprint = some s → s ≠ "" →
        sprintCondition s ∈
          fetch_todos_conditions status assignee priority project sprint) := by
  intro status assignee priority project sprint sb sd
  have hnil : fetch_todos_conditions status assignee priority project sprint = [] ↔
      (optTruthy status = false ∧ optTruthy assignee = false ∧
        optTruthy priority = false ∧ optTruthy project = false ∧
        optTruthy sprint = false) := by
    simp [fetch_todos_conditions, criterionBlock_nil_iff]
  have hfil : lookupKey "filter"
      (fetch_todos_query status assignee priority project sprint sb sd) = Option.none ↔
      fetch_todos_conditions status assignee priority project sprint = [] := by
    rcases hcl : fetch_todos_conditions status assignee priority project sprint with
      _ | ⟨a, as⟩
    · simp [fetch_todos_query, hcl, lookupKey]
    · simp [fetch_todos_query, hcl, lookupKey]
  refine ⟨hfil.trans hnil, ?_, ?_, ?_, ?_, ?_, ?_, ?_⟩
  · intro hne
    rcases hcl : fetch_todos_conditions status assignee priority project sprint with
      _ | ⟨a, as⟩
    · exact absurd hcl hne
    · simp [fetch_todos_query, hcl, lookupKey]
  · simp [fetch_todos_conditions, length_criterionBlock]
  · intro s hs hne
    subst hs
    simp [fetch_todos_conditions, criterionBlock_of_truthy _ _ s rfl hne]
  · intro s hs hne
    subst hs
    simp [fetch_todos_conditions, criterionBlock_of_truthy _ _ s rfl hne]
  · intro s hs hne
    subst hs
    simp [fetch_todos_conditions, criterionBlock_of_truthy _ _ s rfl hne]
  · intro s hs hne
    subst hs
    simp [fetch_todos_conditions, criterionBlock_of_truthy _ _ s rfl hne]
  · intro s hs hne
    subst hs
    simp [fetch_todos_conditions, criterionBlock_of_truthy _ _ s rfl hne]

/-- Witness for claim C5 at concrete criteria (status and priority set, the
rest unset; and the all-unset case). -/
theorem query_builder_filter_spec_witness :
    lookupKey "filter" (fetch_todos_query (some "Done") Option.none (some "High")
        Option.none Option.none "Due" "ascending") =
      some (.dict [("and", .list (fetch_todos_conditions (some "Done") Option.none
        (some "High") Option.none Option.none))]) ∧
    statusCondition "Done" ∈ fetch_todos_conditions (some "Done") Option.none
      (some "High") Option.none Option.none ∧
    priorityCondition "High" ∈ fetch_todos_conditions (some "Done") Option.none
      (some "High") Option.none Option.none ∧
    lookupKey "filter" (fetch_todos_query Option.none Option.none Option.none
      Option.none Option.none "Due" "ascending") = Option.none := by
  have h := query_builder_filter_spec (some "Done") Option.none (some "High")
    Option.none Option.none "Due" "ascending"
  have h0 := query_builder_filter_spec Option.none Option.none Option.none Option.none
    Option.none "Due" "ascending"
  refine ⟨h.2.1 ?_, h.2.2.2.1 "Done" rfl (by decide),
    h.2.2.2.2.2.1 "High" rfl (by decide), h0.1.mpr ⟨rfl, rfl, rfl, rfl, rfl⟩⟩
  intro hx
  simp [fetch_todos_conditions, criterionBlock] at hx

/-- Claim C6.  A create request with an empty task name fails with the task
validation error (the model's pre-network outcome), so no HTTP request
payload is ever built for it; and whenever create does reach the HTTP
request, the task is non-empty, the due string passed date-format validation,
and priority and status are among the enumerated literals — all four
validations precede the network call. -/
theorem create_empty_task_fails_before_request :
    ∀ r : CreateRequest,
      (r.task = "" → create_todo r = .validationError "Task name is required") ∧
      (∀ ps, create_todo r = .request ps →
        r.task ≠ "" ∧ validate_date r.due = true ∧
        (r.priority = "High" ∨ r.priority = "Medium" ∨ r.priority = "Low") ∧
        (r.status = "Done" ∨ r.status = "In progress" ∨ r.status = "Not started")) := by
  intro r
  constructor
  · intro h
    simp [create_todo, h]
  · intro ps h
    simp only [create_todo] at h
    split_ifs at h with h1 h2 h3 h4
    have h3' : ¬r.priority = "High" → ¬r.priority = "Medium" → r.priority = "Low" := by
      simpa using h3
    have h4' : ¬r.status = "Done" → ¬r.status = "In progress" →
        r.status = "Not started" := by
      simpa using h4
    exact ⟨by simpa using h1, by simpa using h2, by tauto, by tauto⟩

/-- Witness for claim C6 at a concrete empty-task request. -/
theorem create_empty_task_fails_before_request_witness :
    create_todo ⟨"", "", "", "Medium", Option.none, "", "", "Not started", ""⟩ =
      .validationError "Task name is required" :=
  (create_empty_task_fails_before_request _).1 rfl

/-- Claim C7.  Per-record failure is isolated: inserting one record whose
conversion raises into a batch leaves the listing unchanged, and when the
other N records all convert, the listing has exactly N entries. -/
theorem per_record_failure_isolated :
    ∀ (l1 l2 : List PyVal) (bad : PyVal) (today : Date),
      processRecord bad = Option.none →
      processTodos false (l1 ++ bad :: l2) today = processTodos false (l1 ++ l2) today ∧
      ((∀ t, t ∈ l1 ++ l2 → (processRecord t).isSome) →
        (processTodos false (l1 ++ bad :: l2) today).length = (l1 ++ l2).length) := by
  intro l1 l2 bad today hbad
  have h1 : processTodos false (l1 ++ bad :: l2) today =
      processTodos false (l1 ++ l2) today := by
    simp [processTodos, List.filterMap_append, List.filterMap_cons, hbad]
  refine ⟨h1, fun hall => ?_⟩
  rw [h1, processTodos]
  apply length_filterMap_of_isSome
  intro a ha
  have hs := hall a ha
  cases hpa : processRecord a with
  | none => rw [hpa] at hs; simp at hs
  | some p =>
    obtain ⟨ft, dd⟩ := p
    simp [hpa]

/-- Witness for claim C7: a batch of two well-formed records with one
throwing record inserted yields exactly the two projected todos. -/
theorem per_record_failure_isolated_witness :
    processTodos false [wellFormedRecord, throwingRecord, wellFormedRecord]
        ⟨2025, 3, 1⟩ =
      processTodos false [wellFormedRecord, wellFormedRecord] ⟨2025, 3, 1⟩ ∧
    (processTodos false [wellFormedRecord, throwingRecord, wellFormedRecord]
        ⟨2025, 3, 1⟩).length = 2 := by
  have h := per_record_failure_isolated [wellFormedRecord] [wellFormedRecord]
    throwingRecord ⟨2025, 3, 1⟩ rfl
  refine ⟨h.1, h.2 ?_⟩
  intro t ht
  simp at ht
  subst ht
  rfl

/-- Claim C8.  `safe_get_property` is total and never raises; it returns the
supplied default when the property is absent, when the type tag is missing,
when the tag is not one of the six handled tags, or when the tag-specific
payload is falsy (null or empty); and it returns the tag-specific value on
well-formed payloads: the first title run's text content, the select name,
the multi-select names, the date start, the people names, and the relation
identifiers. -/
theorem safe_get_property_default_cases :
    (∀ (fs : List (String × PyVal)) (key : String) (d : PyVal),
      lookupKey key fs = Option.none → safe_get_property (.dict fs) key d = d) ∧
    (∀ (fs : List (String × PyVal)) (key : String) (d : PyVal)
        (pfs : List (String × PyVal)),
      lookupKey key fs = some (.dict pfs) → lookupKey "type" pfs = Option.none →
      safe_get_property (.dict fs) key d = d) ∧
    (∀ (fs : List (String × PyVal)) (key : String) (d : PyVal)
        (pfs : List (String × PyVal)) (tag : String),
      lookupKey key fs = some (.dict pfs) → lookupKey "type" pfs = some (.str tag) →
      tag ≠ "title" → tag ≠ "select" → tag ≠ "multi_select" → tag ≠ "date" →
      tag ≠ "people" → tag ≠ "relation" →
      safe_get_property (.dict fs) key d = d) ∧
    (∀ (fs : List (String × PyVal)) (key : String) (d : PyVal)
        (pfs : List (String × PyVal)) (tag : String) (pl : PyVal),
      lookupKey key fs = some (.dict pfs) → lookupKey "type" pfs = some (.str tag) →
      (tag = "title" ∨ tag = "select" ∨ tag = "multi_select" ∨ tag = "date" ∨
        tag = "people" ∨ tag = "relation") →
      lookupKey tag pfs = some pl → pl.truthy = false →
      safe_get_property (.dict fs) key d = d) ∧
    (∀ (fs : List (String × PyVal)) (key : String) (d : PyVal)
        (pfs : List (String × PyVal)) (first tv c : PyVal) (rest : List PyVal),
      lookupKey key fs = some (.dict pfs) → lookupKey "type" pfs = some (.str "title") →
      lookupKey "title" pfs = some (.list (first :: rest)) →
      first.getItem "text" = some tv → tv.getItem "content" = some c →
      safe_get_property (.dict fs) key d = c) ∧
    (∀ (fs : List (String × PyVal)) (key : String) (d : PyVal)
        (pfs : List (String × PyVal)) (sv n : PyVal),
      lookupKey key fs = some (.dict pfs) → lookupKey "type" pfs = some (.str "select") →
      lookupKey "select" pfs = some sv → sv.truthy = true →
      sv.getItem "name" = some n →
      safe_get_property (.dict fs) key d = n) ∧
    (∀ (fs : List (String × PyVal)) (key : String) (d : PyVal)
        (pfs : List (String × PyVal)) (items names : List PyVal),
      lookupKey key fs = some (.dict pfs) →
      lookupKey "type" pfs = some (.str "multi_select") →
      lookupKey "multi_select" pfs = some (.list items) → items ≠ [] →
      getItems "name" items = some names →
      safe_get_property (.dict fs) key d = .list names) ∧
    (∀ (fs : List (String × PyVal)) (key : String) (d : PyVal)
        (pfs : List (String × PyVal)) (dv st : PyVal),
      lookupKey key fs = some (.dict pfs) → lookupKey "type" pfs = some (.str "date") →
      lookupKey "date" pfs = some dv → dv.truthy = true →
      dv.getItem "start" = some st →
      safe_get_property (.dict fs) key d = st) ∧
    (∀ (fs : List (String × PyVal)) (key : String) (d : PyVal)
        (pfs : List (String × PyVal)) (people names : List PyVal),
      lookupKey key fs = some (.dict pfs) → lookupKey "type" pfs = some (.str "people") →
      lookupKey "people" pfs = some (.list people) → people ≠ [] →
      getItems "name" people = some names →
      safe_get_property (.dict fs) key d = .list names) ∧
    (∀ (fs : List (String × PyVal)) (key : String) (d : PyVal)
        (pfs : List (String × PyVal)) (rels ids : List PyVal),
      lookupKey key fs = some (.dict pfs) →
      lookupKey "type" pfs = some (.str "relation") →
      lookupKey "relation" pfs = some (.list rels) → rels ≠ [] →
      getItems "id" rels = some ids →
      safe_get_property (.dict fs) key d = .list ids) := by
  refine ⟨?_, ?_, ?_, ?_, ?_, ?_, ?_, ?_, ?_, ?_⟩
  · intro fs key d h
    exact safe_get_property_absent fs key d h
  · intro fs key d pfs h ht
    rw [safe_get_property_entry _ _ _ _ h, propDecode_no_tag _ _ ht]
    rfl
  · intro fs key d pfs tag h ht h1 h2 h3 h4 h5 h6
    rw [safe_get_property_entry _ _ _ _ h,
      propDecode_unknown_tag _ _ _ ht h1 h2 h3 h4 h5 h6]
    rfl
  · intro fs key d pfs tag pl h ht hmem hpl hfl
    rw [safe_get_property_entry _ _ _ _ h,
      propDecode_falsy_payload _ _ _ _ ht hmem hpl hfl]
    rfl
  · intro fs key d pfs first tv c rest h ht hl htx hc
    rw [safe_get_property_entry _ _ _ _ h,
      propDecode_title_value _ _ _ _ _ _ ht hl htx hc]
    rfl
  · intro fs key d pfs sv n h ht hsv htr hn
    rw [safe_get_property_entry _ _ _ _ h, propDecode_select_value _ _ _ _ ht hsv htr hn]
    rfl
  · intro fs key d pfs items names h ht hms hne hnames
    rw [safe_get_property_entry _ _ _ _ h,
      propDecode_multi_select_value _ _ _ _ ht hms hne hnames]
    rfl
  · intro fs key d pfs dv st h ht hdv htr hst
    rw [safe_get_property_entry _ _ _ _ h, propDecode_date_value _ _ _ _ ht hdv htr hst]
    rfl
  · intro fs key d pfs people names h ht hpv hne hnames
    rw [safe_get_property_entry _ _ _ _ h,
      propDecode_people_value _ _ _ _ ht hpv hne hnames]
    rfl
  · intro fs key d pfs rels ids h ht hrv hne hids
    rw [safe_get_property_entry _ _ _ _ h,
      propDecode_relation_value _ _ _ _ ht hrv hne hids]
    rfl

/-- Witness for claim C8: one concrete instance per enumerated decode case. -/
theorem safe_get_property_default_cases_witness :
    safe_get_property (.dict []) "Task name" (.str "dflt") = .str "dflt" ∧
    safe_get_property (.dict [("K", .dict [("x", .null)])]) "K" (.str "dflt") =
      .str "dflt" ∧
    safe_get_property (.dict [("K", .dict [("type", .str "url"), ("url", .str "u")])])
      "K" (.str "dflt") = .str "dflt" ∧
    safe_get_property (.dict [("K", .dict [("type", .str "select"), ("select", .null)])])
      "K" (.str "dflt") = .str "dflt" ∧
    safe_get_property (.dict [("K", .dict [("type", .str "title"),
      ("title", .list [.dict [("type", .str "text"),
        ("text", .dict [("content", .str "hello")])]])])]) "K" (.str "") =
      .str "hello" ∧
    safe_get_property (.dict [("K", .dict [("type", .str "select"),
      ("select", .dict [("name", .str "Hi")])])]) "K" (.str "") = .str "Hi" ∧
    safe_get_property (.dict [("K", .dict [("type", .str "multi_select"),
      ("multi_select", .list [.dict [("name", .str "a")]])])]) "K" (.list []) =
      .list [.str "a"] ∧
    safe_get_property (.dict [("K", .dict [("type", .str "date"),
      ("date", .dict [("start", .str "2025-01-01")])])]) "K" (.str "") =
      .str "2025-01-01" ∧
    safe_get_property (.dict [("K", .dict [("type", .str "people"),
      ("people", .list [.dict [("name", .str "Ann")]])])]) "K" (.str "") =
      .list [.str "Ann"] ∧
    safe_get_property (.dict [("K", .dict [("type", .str "relation"),
      ("relation", .list [.dict [("id", .str "r1")]])])]) "K" (.str "") =
      .list [.str "r1"] := by
  refine ⟨safe_get_property_default_cases.1 [] "Task name" (.str "dflt") rfl,
    safe_get_property_default_cases.2.1 _ "K" _ _ rfl rfl,
    safe_get_property_default_cases.2.2.1 _ "K" _ _ "url" rfl rfl (by decide) (by decide)
      (by decide) (by decide) (by decide) (by decide),
    safe_get_property_default_cases.2.2.2.1 _ "K" _ _ "select" .null rfl rfl
      (Or.inr (Or.inl rfl)) rfl rfl,
    safe_get_property_default_cases.2.2.2.2.1 _ "K" _ _ _ _ _ [] rfl rfl rfl rfl rfl,
    safe_get_property_default_cases.2.2.2.2.2.1 _ "K" _ _ _ _ rfl rfl rfl rfl rfl,
    safe_get_property_default_cases.2.2.2.2.2.2.1 _ "K" _ _ _ _ rfl rfl rfl (by simp)
      rfl,
    safe_get_property_default_cases.2.2.2.2.2.2.2.1 _ "K" _ _ _ _ rfl rfl rfl rfl rfl,
    safe_get_property_default_cases.2.2.2.2.2.2.2.2.1 _ "K" _ _ _ _ rfl rfl rfl
      (by simp) rfl,
    safe_get_property_default_cases.2.2.2.2.2.2.2.2.2 _ "K" _ _ _ _ rfl rfl rfl
      (by simp) rfl⟩

/-- Claim C9.  The spec's end-to-end scenario: create with priority High,
then complete.  The update payload of `complete_todo` does name only the
`Status` property, and the priority of the updated record still projects as
High; but the projected status after completion is the empty default, not
Done, because `complete_todo` writes Status with type tag `status`, which
`safe_get_property` has no branch for.  The claim's asserted outcome
(projected status = Done) therefore fails on the code. -/
theorem complete_update_payload_frame :
    create_todo reqC9 = .request (encodeProperties reqC9) ∧
    complete_todo_properties.map Prod.fst = ["Status"] ∧
    safe_get_property
      (.dict (updateProperties (encodeProperties reqC9) complete_todo_properties))
      "Priority" (.str "") = .str "High" ∧
    safe_get_property
      (.dict (updateProperties (encodeProperties reqC9) complete_todo_properties))
      "Status" (.str "") = .str "" ∧
    (PyVal.str "" ≠ .str "Done") := by
  refine ⟨rfl, rfl, rfl, rfl, by simp⟩

/-- Claim C10.  A property whose type tag is `url` (as encode writes for the
external link) or `status` (as complete writes for Status) decodes to the
supplied default regardless of the stored value, and consequently the
projected `github_pr` field of a todo whose `GitHub PR` property is
url-tagged is the empty-string default. -/
theorem url_and_status_tags_decode_default :
    (∀ (fs pfs : List (String × PyVal)) (key : String) (d : PyVal),
      lookupKey key fs = some (.dict pfs) →
      (lookupKey "type" pfs = some (.str "url") ∨
        lookupKey "type" pfs = some (.str "status")) →
      safe_get_property (.dict fs) key d = d) ∧
    (∀ (todo : PyVal) (fs pfs : List (String × PyVal)) (ft : FormattedTodo)
        (dd : Option Date),
      processRecord todo = some (ft, dd) →
      todo.getItem "properties" = some (.dict fs) →
      lookupKey "GitHub PR" fs = some (.dict pfs) →
      lookupKey "type" pfs = some (.str "url") →
      ft.github_pr = .str "") := by
  constructor
  · intro fs pfs key d hlk htag
    rw [safe_get_property_entry _ _ _ _ hlk]
    rcases htag with h | h
    · rw [propDecode_unknown_tag pfs "url" d h (by decide) (by decide) (by decide)
        (by decide) (by decide) (by decide)]
      rfl
    · rw [propDecode_unknown_tag pfs "status" d h (by decide) (by decide) (by decide)
        (by decide) (by decide) (by decide)]
      rfl
  · intro todo fs pfs ft dd hpr hp hlk htag
    have hf := (processRecord_fields todo ft dd (.dict fs) hpr hp).1
    rw [hf, safe_get_property_entry _ _ _ _ hlk,
      propDecode_unknown_tag pfs "url" _ htag (by decide) (by decide) (by decide)
        (by decide) (by decide) (by decide)]
    rfl

/-- Witness for claim C10 at the concrete record `recC10` (url-tagged
GitHub PR and status-tagged Status). -/
theorem url_and_status_tags_decode_default_witness :
    (⟨.str "rec-2", .str "", .str "", .str "", .str "", .str "", .str "", .list [],
      .str "", .str "", .str "", .str "2025-01-02T00:00:00.000Z"⟩ :
        FormattedTodo).github_pr = .str "" ∧
    safe_get_property (.dict [("GitHub PR",
      .dict [("type", .str "url"), ("url", .str "https://github.example/pr/7")])])
      "GitHub PR" (.str "") = .str "" ∧
    safe_get_property (.dict [("Status",
      .dict [("type", .str "status"), ("status", .dict [("name", .str "Done")])])])
      "Status" (.str "") = .str "" := by
  refine ⟨url_and_status_tags_decode_default.2 recC10 _ _ _ Option.none rfl rfl rfl rfl,
    url_and_status_tags_decode_default.1 _ _ "GitHub PR" _ rfl (Or.inl rfl),
    url_and_status_tags_decode_default.1 _ _ "Status" _ rfl (Or.inr rfl)⟩

end NotionMcp
